import Mathlib

/-!
# Romanesco: the `QFramebuffer` window declaration

A verification development over `include/GUI/qframebuffer.h`.  The header holds one class
declaration and no function body, so the development has two layers:

* the class body as written (lines 12-29), item by item in source order, together with the
  C++ rules that give it a meaning: what the preprocessor puts in place of `Q_OBJECT`, which
  access region an item falls in, and how the arguments of a call are matched to the
  parameters of a declaration;
* the state of a window (one value per declared data member, next to the inherited
  `QMainWindow` subobject) and what code outside the class can do to it through the members
  the class declares.
-/

namespace Romanesco

/-! ## The declaration as written -/

/-- The C++ types that occur in the header. -/
inductive CType where
  /-- A class type written by name, such as `QImage`. -/
  | named (name : String)
  /-- A pointer type `T*`. -/
  | pointer (pointee : CType)
  /-- A `QList<T>`, the toolkit's ordered sequence container. -/
  | qlist (element : CType)
  /-- A const-qualified type `const T`. -/
  | const (base : CType)
  deriving DecidableEq, Repr

/-- The labels that open a region of a Qt class body. -/
inductive Label where
  /-- The label `public:`. -/
  | pub
  /-- The label `private:`. -/
  | priv
  /-- The label `signals:`. -/
  | signals
  /-- The label `public slots:`. -/
  | publicSlots
  deriving DecidableEq, Repr

/-- A pointer value is an address; address `0` is the null pointer. -/
abbrev Ptr := Nat

/-- The null pointer, which is what the literal `0` denotes at pointer type. -/
def nullptr : Ptr := 0

/-- One parameter of a function declaration; `dflt` is the default argument when the
declaration gives one. -/
structure Param where
  type : CType
  name : String
  dflt : Option Ptr
  deriving DecidableEq, Repr

/-- One item of a class body. -/
inductive Item where
  /-- An invocation of a preprocessor name from the toolkit, kept unexpanded (`Q_OBJECT`). -/
  | marker (name : String)
  /-- An access label; it governs the items after it, up to the next label. -/
  | label (l : Label)
  /-- A constructor declaration. -/
  | ctor (isExplicit : Bool) (params : List Param)
  /-- A member function declaration other than a constructor. -/
  | method (ret : CType) (name : String) (params : List Param)
  /-- A non-static data member declaration. -/
  | field (type : CType) (name : String)
  /-- A static data member declaration: one object for the class, none in a window. -/
  | staticField (type : CType) (name : String)
  /-- A static member function declaration, by its signature. -/
  | staticMethod (ret : CType) (name : String) (paramTypes : List CType)
  /-- A member type declaration, such as `struct S {};`. -/
  | nestedType (name : String)
  deriving DecidableEq, Repr

/-- A class declaration: the class key is `class`, so the body starts in the private
region. -/
structure ClassDecl where
  name : String
  publicBases : List String
  body : List Item
  deriving DecidableEq, Repr

/-- The declaration of `QFramebuffer`, lines 12-29 of `qframebuffer.h`. -/
def QFramebuffer_h : ClassDecl where
  name := "QFramebuffer"
  publicBases := ["QMainWindow"]
  body :=
    [ .marker "Q_OBJECT",
      .label .pub,
      .ctor true [⟨.pointer (.named "QWidget"), "parent", some 0⟩],
      .label .priv,
      .field (.pointer (.named "QAnimatedTimeline")) "m_timeline",
      .field (.pointer (.named "QGraphicsScene")) "m_scene",
      .field (.pointer (.named "QMenuBar")) "m_menu",
      .field (.pointer (.named "QGraphicsView")) "m_view",
      .field (.qlist (.named "QImage")) "m_frames",
      .label .signals,
      .label .publicSlots ]

/-- A declared member together with the region it was declared in. -/
structure Member where
  region : Label
  item : Item
  deriving DecidableEq, Repr

/-- What the Qt toolkit defines `Q_OBJECT` to stand for (its `qobjectdefs.h`, version 5; the
file is the toolkit's, not the repository's): the meta-object members of the class.  The
functions `metaObject`, `qt_metacast` and `qt_metacall` are virtual; `tr` and `trUtf8` give
defaults to their last two parameters. -/
def Q_OBJECT : List Item :=
  [ .label .pub,
    .staticField (.const (.named "QMetaObject")) "staticMetaObject",
    .method (.pointer (.const (.named "QMetaObject"))) "metaObject" [],
    .method (.pointer (.named "void")) "qt_metacast"
      [⟨.pointer (.const (.named "char")), "", none⟩],
    .method (.named "int") "qt_metacall"
      [ ⟨.named "QMetaObject::Call", "", none⟩,
        ⟨.named "int", "", none⟩,
        ⟨.pointer (.pointer (.named "void")), "", none⟩ ],
    .staticMethod (.named "QString") "tr"
      [.pointer (.const (.named "char")), .pointer (.const (.named "char")), .named "int"],
    .staticMethod (.named "QString") "trUtf8"
      [.pointer (.const (.named "char")), .pointer (.const (.named "char")), .named "int"],
    .label .priv,
    .staticMethod (.named "void") "qt_static_metacall"
      [ .pointer (.named "QObject"), .named "QMetaObject::Call", .named "int",
        .pointer (.pointer (.named "void")) ],
    .nestedType "QPrivateSignal" ]

/-- The preprocessor definitions in force where the header is compiled: only `Q_OBJECT` is
defined among the names the class body uses. -/
def qtDefs (name : String) : Option (List Item) :=
  if name = "Q_OBJECT" then some Q_OBJECT else none

/-- What stands in place of the name `n` after preprocessing under `env`: its definition,
or the name itself when it has none. -/
def replacement (env : String → Option (List Item)) (n : String) : List Item :=
  (env n).getD [.marker n]

/-- Preprocesses a class body: every marker gives way to its replacement. -/
def expand (env : String → Option (List Item)) : List Item → List Item
  | [] => []
  | .marker n :: rest => replacement env n ++ expand env rest
  | it :: rest => it :: expand env rest

/-- Walks a preprocessed class body from the region `cur`: a label switches the region,
every other item is a member of the current region. -/
def membersFrom (cur : Label) : List Item → List Member
  | [] => []
  | .label l :: rest => membersFrom l rest
  | it :: rest => ⟨cur, it⟩ :: membersFrom cur rest

/-- The members a class declares when its body is preprocessed under `env`, each with its
region; a `class` body opens private. -/
def ClassDecl.membersIn (env : String → Option (List Item)) (c : ClassDecl) : List Member :=
  membersFrom .priv (expand env c.body)

/-- The members a class declares, each with its region, in a Qt build. -/
def ClassDecl.members (c : ClassDecl) : List Member :=
  c.membersIn qtDefs

/-- Whether an item is a data member. -/
def Item.isField : Item → Bool
  | .field _ _ => true
  | _ => false

/-- Whether an item is an operation: a constructor or another member function, static or
not. -/
def Item.isOperation : Item → Bool
  | .ctor _ _ => true
  | .method _ _ _ => true
  | .staticMethod _ _ _ => true
  | _ => false

/-- Whether an item is a member function that is called on an existing object. -/
def Item.isMethod : Item → Bool
  | .method _ _ _ => true
  | _ => false

/-- The name a member is declared under; a constructor, a label and a marker have none. -/
def Item.declName : Item → Option String
  | .method _ n _ => some n
  | .field _ n => some n
  | .staticField _ n => some n
  | .staticMethod _ n _ => some n
  | .nestedType n => some n
  | _ => none

/-- The data members a class declares. -/
def ClassDecl.fields (c : ClassDecl) : List Member :=
  c.members.filter (fun m => m.item.isField)

/-- The operations a class declares, constructors included. -/
def ClassDecl.operations (c : ClassDecl) : List Member :=
  c.members.filter (fun m => m.item.isOperation)

/-- The members declared in the region `l`. -/
def ClassDecl.inRegion (c : ClassDecl) (l : Label) : List Member :=
  c.members.filter (fun m => m.region = l)

/-- The parameter list of the first constructor a class declares. -/
def ctorParams : List Item → Option (List Param)
  | [] => none
  | .ctor _ ps :: _ => some ps
  | _ :: rest => ctorParams rest

/-! ## Calls -/

/-- Matches the arguments of a call to the parameters of the declaration, in order: an
argument that is given is used, a parameter left without one takes its default, and the
call is ill-formed when a parameter has neither or an argument has no parameter. -/
def bindArgs : List Param → List Ptr → Option (List Ptr)
  | [], [] => some []
  | [], _ :: _ => none
  | p :: ps, [] =>
    match p.dflt with
    | some d => (bindArgs ps []).map (fun vs => d :: vs)
    | none => none
  | _ :: ps, a :: as => (bindArgs ps as).map (fun vs => a :: vs)

/-- A constructor call `QFramebuffer(args)`.  The body of the constructor is not in the
header, so it is the parameter `body`, any function of the parent pointer into any result
type; the call binds `args` against the declared parameter list and runs `body`. -/
def QFramebuffer.construct {σ : Type} (body : Ptr → σ) (args : List Ptr) : Option σ :=
  match (ctorParams QFramebuffer_h.body).bind (fun ps => bindArgs ps args) with
  | some [parent] => some (body parent)
  | _ => none

/-! ## The state of a window -/

/-- The state of a `QFramebuffer`: the inherited `QMainWindow` subobject and one value per
declared data member.  The toolkit's types are parameters. -/
structure QFramebuffer (QMainWindow QImage : Type) where
  toQMainWindow : QMainWindow
  m_timeline : Ptr
  m_scene : Ptr
  m_menu : Ptr
  m_view : Ptr
  m_frames : List QImage

/-- The values of the declared data members of a window, in declaration order. -/
def QFramebuffer.declared {W I : Type} (s : QFramebuffer W I) :
    Ptr × Ptr × Ptr × Ptr × List I :=
  (s.m_timeline, s.m_scene, s.m_menu, s.m_view, s.m_frames)


/-! ## Access from outside the class -/

/-- A label in the middle of a body cuts the walk in two. -/
theorem membersFrom_append_label (cur l : Label) (q rest : List Item) :
    membersFrom cur (q ++ .label l :: rest) = membersFrom cur q ++ membersFrom l rest := by
  induction q generalizing cur with
  | nil => simp [membersFrom]
  | cons it q ih => cases it <;> simp [membersFrom, ih]

/-- Whatever `Q_OBJECT` stands for, the members of the class are those of its replacement
followed by those of the text after it. -/
theorem membersIn_eq (env : String → Option (List Item)) :
    QFramebuffer_h.membersIn env =
      membersFrom .priv (replacement env "Q_OBJECT") ++
        membersFrom .priv QFramebuffer_h.body.tail := by
  simp only [ClassDecl.membersIn, QFramebuffer_h, expand, List.tail_cons]
  rw [membersFrom_append_label]
  rfl

/-- A window is rebuilt from its inherited subobject and its declared member values. -/
theorem QFramebuffer.eq_of_parts {W I : Type} (s t : QFramebuffer W I)
    (hw : s.toQMainWindow = t.toQMainWindow) (hd : s.declared = t.declared) : s = t := by
  cases s
  cases t
  simp only [QFramebuffer.declared, Prod.mk.injEq] at hw hd
  obtain ⟨h1, h2, h3, h4, h5⟩ := hd
  subst hw h1 h2 h3 h4 h5
  rfl

/-- C1: the data members the class declares are exactly five, in this order: the pointers
`m_timeline` (to a timeline widget), `m_scene` (to a graphics scene), `m_menu` (to a menu
bar) and `m_view` (to a graphics view), and the image sequence `m_frames`; the class declares
no other data member of a window (all it declares is what `Q_OBJECT` stands for, which has
none, then its constructor, then these five), so that a window state is its inherited
subobject together with these five values, each combination of values being a state and no
two states sharing one. -/
theorem QFramebuffer_declares_five_members :
    QFramebuffer_h.fields.map (fun m => m.item) =
      [ Item.field (.pointer (.named "QAnimatedTimeline")) "m_timeline",
        Item.field (.pointer (.named "QGraphicsScene")) "m_scene",
        Item.field (.pointer (.named "QMenuBar")) "m_menu",
        Item.field (.pointer (.named "QGraphicsView")) "m_view",
        Item.field (.qlist (.named "QImage")) "m_frames" ] ∧
    QFramebuffer_h.fields.length = 5 ∧
    QFramebuffer_h.members =
      membersFrom .priv Q_OBJECT ++
        (⟨.pub, .ctor true [⟨.pointer (.named "QWidget"), "parent", some nullptr⟩]⟩ ::
          QFramebuffer_h.fields) ∧
    (membersFrom .priv Q_OBJECT).filter (fun m => m.item.isField) = [] ∧
    ∀ W I : Type, Function.Bijective
      (fun s : QFramebuffer W I => (s.toQMainWindow, s.declared)) := by
  refine ⟨rfl, rfl, rfl, rfl, fun W I => ⟨?_, ?_⟩⟩
  · intro s t h
    simp only [Prod.mk.injEq] at h
    exact QFramebuffer.eq_of_parts s t h.1 h.2
  · rintro ⟨w, a, b, c, d, fs⟩
    exact ⟨⟨w, a, b, c, d, fs⟩, rfl⟩

/-- C2, as stated, fails: in a Qt build the constructor is not the only operation the class
declares.  The class declares seven, and its public region holds the member functions
`metaObject`, `qt_metacast` and `qt_metacall`, which `Q_OBJECT` puts there. -/
theorem QFramebuffer_declares_more_than_constructor :
    QFramebuffer_h.operations ≠
      [⟨.pub, .ctor true [⟨.pointer (.named "QWidget"), "parent", some nullptr⟩]⟩] ∧
    QFramebuffer_h.operations.length = 7 ∧
    ((QFramebuffer_h.inRegion .pub).filter (fun m => m.item.isMethod)).map
      (fun m => m.item.declName) =
      [some "metaObject", some "qt_metacast", some "qt_metacall"] := by
  refine ⟨by decide, rfl, by decide⟩

/-- C2, amended: besides what `Q_OBJECT` declares, the one operation of the class is the
public explicit constructor whose single parameter, a pointer to the parent widget, has a
default argument.  Whatever `Q_OBJECT` stands for, the operations of the class are those of
its replacement and then the constructor, the public region gains the constructor alone,
and the signals region and the public slots region gain nothing.  In a Qt build the last
two regions are empty and the public operations are the five of `Q_OBJECT` and the
constructor. -/
theorem QFramebuffer_operations_besides_Q_OBJECT (env : String → Option (List Item)) :
    (QFramebuffer_h.membersIn env).filter (fun m => m.item.isOperation) =
      (membersFrom .priv (replacement env "Q_OBJECT")).filter (fun m => m.item.isOperation) ++
        [⟨.pub, .ctor true [⟨.pointer (.named "QWidget"), "parent", some nullptr⟩]⟩] ∧
    (QFramebuffer_h.membersIn env).filter (fun m => m.region = .pub) =
      (membersFrom .priv (replacement env "Q_OBJECT")).filter (fun m => m.region = .pub) ++
        [⟨.pub, .ctor true [⟨.pointer (.named "QWidget"), "parent", some nullptr⟩]⟩] ∧
    (QFramebuffer_h.membersIn env).filter (fun m => m.region = .signals) =
      (membersFrom .priv (replacement env "Q_OBJECT")).filter (fun m => m.region = .signals) ∧
    (QFramebuffer_h.membersIn env).filter (fun m => m.region = .publicSlots) =
      (membersFrom .priv (replacement env "Q_OBJECT")).filter
        (fun m => m.region = .publicSlots) ∧
    QFramebuffer_h.inRegion .signals = [] ∧
    QFramebuffer_h.inRegion .publicSlots = [] ∧
    ((QFramebuffer_h.inRegion .pub).filter (fun m => m.item.isOperation)).map
      (fun m => m.item.declName) =
      [some "metaObject", some "qt_metacast", some "qt_metacall", some "tr", some "trUtf8",
        none] := by
  refine ⟨?_, ?_, ?_, ?_, by decide, by decide, by decide⟩
  · rw [membersIn_eq, List.filter_append]
    rfl
  · rw [membersIn_eq, List.filter_append]
    congr 1
  · rw [membersIn_eq, List.filter_append]
    exact List.append_nil _
  · rw [membersIn_eq, List.filter_append]
    exact List.append_nil _

/-- C4: a constructor call without an argument is the call with the null parent pointer:
the declared default of `parent` is `0`, so for every constructor body both calls are
well-formed and give the result of the body at the null pointer. -/
theorem construct_no_argument_eq_null {σ : Type} (body : Ptr → σ) :
    QFramebuffer.construct body [] = QFramebuffer.construct body [nullptr] ∧
    QFramebuffer.construct body [] = some (body nullptr) :=
  ⟨rfl, rfl⟩

end Romanesco
